import Mathlib

/-!
Verification development for the AirSwap `Messenger` client
(`src/messenger.js`): a JSON-RPC request/response layer over a single
WebSocket connection, with a challenge-response authentication handshake
and per-call resolver/rejector/timeout bookkeeping.

The embedding models:
  * JavaScript value truthiness (`JsValue.truthy`), since the source
    branches on `message.method`, `message.id`, `message.result`,
    `makerAmount`, ... via JS truthiness, and on the `error` key via
    `hasOwnProperty`;
  * the mutable tables `RESOLVERS`, `REJECTORS`, `TIMEOUTS` as
    association lists in a state record `PState`;
  * `Messenger.call` (arming of resolver/rejector/timeout),
    the authenticated `onmessage` branch (`handleMessage`), and the
    firing of an armed `setTimeout` callback (`timerFire`);
  * the pre-authentication `onmessage` branch (`authStep`);
  * the argument-validation and payload construction of `getOrder`,
    `getQuote`, `getMaxQuote`, and `getOrders`.

Callbacks are modelled by opaque tokens (`Nat`); invoking one is recorded
as an `Event` in an output trace, so "the resolver fires" is observable.
-/

namespace Messenger

/-- Subset of JavaScript values sufficient to decide truthiness and carry
RPC payload fields. `vObj` is an opaque non-null object tagged by a string
(objects are always truthy). -/
inductive JsValue where
  | vNull
  | vUndefined
  | vBool (b : Bool)
  | vNum (n : Int)
  | vStr (s : String)
  | vObj (tag : String)
deriving DecidableEq, Repr

/-- JavaScript truthiness of a value: `null`, `undefined`, `false`, `0`
and `""` are falsy, everything else here is truthy. -/
def JsValue.truthy : JsValue → Bool
  | .vNull => false
  | .vUndefined => false
  | .vBool b => b
  | .vNum n => n != 0
  | .vStr s => s != ""
  | .vObj _ => true

/-- Truthiness of an optional field of an object: an absent field reads as
`undefined`, hence falsy. -/
def truthyOpt : Option JsValue → Bool
  | none => false
  | some v => v.truthy

/-- Truthiness of an optional string-valued field (absent, or the empty
string, is falsy). -/
def jsTruthyStr : Option String → Bool
  | none => false
  | some s => s != ""

/-- Lookup in an association list keyed by strings, mirroring a JS object
property read `obj[k]`. -/
def lookupK (k : String) : List (String × α) → Option α
  | [] => none
  | (k', v) :: rest => if k' = k then some v else lookupK k rest

/-- Removal of a key from an association list, mirroring `delete obj[k]`. -/
def eraseK (k : String) : List (String × α) → List (String × α)
  | [] => []
  | (k', v) :: rest =>
      if k' = k then eraseK k rest else (k', v) :: eraseK k rest

/-- Property write `obj[k] = v`: overwrites any previous binding. -/
def insertK (k : String) (v : α) (l : List (String × α)) :
    List (String × α) :=
  (k, v) :: eraseK k l

/-- Fixed timeout duration armed by `call` (milliseconds): `TIMEOUT = 12000`
in the source. -/
def TIMEOUT : Nat := 12000

/-- A timer handle stored in `TIMEOUTS`: the `setTimeout` scheduled by
`call`. Its closure captured the `reject` callback (`rejectCb`) and the
message id; `armed` is true until the timer fires or `clearTimeout` is
called on the handle. -/
structure Timer where
  armed : Bool
  duration : Nat
  rejectCb : Option Nat
deriving DecidableEq, Repr

/-- The mutable per-instance state of the correlation engine: the
`RESOLVERS`, `REJECTORS` and `TIMEOUTS` tables, keyed by the inner RPC
message id. -/
structure PState where
  resolvers : List (String × Nat)
  rejectors : List (String × Nat)
  timeouts : List (String × Timer)
deriving DecidableEq, Repr

/-- State with all three tables empty (a fresh `Messenger`). -/
def PState.empty : PState := ⟨[], [], []⟩

/-- A value passed to a rejector: either the synthetic timeout error
`\x7b message, code: -1 \x7d` or the verbatim `error` field of a response. -/
inductive RejectVal where
  | timeoutError (message : String) (code : Int)
  | errVal (v : JsValue)
deriving DecidableEq, Repr

/-- Observable effects of the correlation engine: a resolver invocation, a
rejector invocation, or the invocation of a registered RPC method handler
with the parsed message. -/
inductive Event (μ : Type) where
  | resolveCb (cb : Nat) (v : JsValue)
  | rejectCb (cb : Nat) (e : RejectVal)
  | invokeMethod (m : String) (msg : μ)
deriving DecidableEq, Repr

/-- The parsed inner RPC message of an inbound post-authentication
envelope. `errorField = some v` means the `error` key is present with
value `v` (`hasOwnProperty` is presence, not truthiness). -/
structure InnerMessage where
  method : Option String := none
  id : Option String := none
  result : Option JsValue := none
  errorField : Option JsValue := none
deriving DecidableEq, Repr

/-- Spelling of `message.result` as the argument passed to the resolver
(only read when the field is present and truthy). -/
def InnerMessage.resultVal (m : InnerMessage) : JsValue :=
  m.result.getD .vUndefined

/-- Spelling of `message.error` as the argument passed to the rejector
(only read when the key is present). -/
def InnerMessage.errorVal (m : InnerMessage) : JsValue :=
  m.errorField.getD .vUndefined

/-- Disarm the timer stored for key `k` (the effect of
`clearTimeout(TIMEOUTS[k])`; a missing entry means `clearTimeout(undefined)`,
a no-op). The table entry itself is not removed, matching the source,
which never deletes from `TIMEOUTS`. -/
def disarm (k : String) : List (String × Timer) → List (String × Timer)
  | [] => []
  | (k', t) :: rest =>
      if k' = k then (k', { t with armed := false }) :: disarm k rest
      else (k', t) :: disarm k rest

/-- The authenticated branch of `socket.onmessage` (source lines 155-197),
applied to a successfully parsed inner message. `registry` is the set of
method names bound to (truthy) handlers in `RPC_METHOD_ACTIONS`.

Mirrors the source: `if (message.method) \x7b ... \x7d else if (message.id)
\x7b ... \x7d`; on the response path, `isError` is
`hasOwnProperty(message, 'error')`; the resolver fires only when
`!isError && message.result` (truthy) and a resolver function is
registered; the rejector fires when `isError` and a rejector is
registered; then `delete RESOLVERS[id]`, `delete REJECTORS[id]`,
`clearTimeout(TIMEOUTS[id])` run unconditionally on this path. -/
def handleMessage (registry : List String) (st : PState)
    (msg : InnerMessage) : PState × List (Event InnerMessage) :=
  if jsTruthyStr msg.method then
    let m := msg.method.getD ""
    if m ∈ registry then (st, [.invokeMethod m msg]) else (st, [])
  else if jsTruthyStr msg.id then
    let i := msg.id.getD ""
    let isError := msg.errorField.isSome
    let evs : List (Event InnerMessage) :=
      if !isError && truthyOpt msg.result then
        match lookupK i st.resolvers with
        | some cb => [.resolveCb cb msg.resultVal]
        | none => []
      else if isError then
        match lookupK i st.rejectors with
        | some cb => [.rejectCb cb (.errVal msg.errorVal)]
        | none => []
      else []
    ({ resolvers := eraseK i st.resolvers
       rejectors := eraseK i st.rejectors
       timeouts := disarm i st.timeouts }, evs)
  else (st, [])

/-- The text of the synthetic timeout error for message id `i`. -/
def timeoutMessage (i : String) : String :=
  "Request timed out. [" ++ i ++ "]"

/-- State effect of `Messenger.call(receiver, message, resolve, reject)`
(source lines 57-80): register `resolve` under `message.id` when it is a
function, likewise `reject`, and always arm a `TIMEOUT`-millisecond timer
whose closure captures `reject`. (The envelope send itself carries no
correlation state.) -/
def call (st : PState) (msgId : String)
    (resolve? reject? : Option Nat) : PState :=
  let st1 := match resolve? with
    | some cb => { st with resolvers := insertK msgId cb st.resolvers }
    | none => st
  let st2 := match reject? with
    | some cb => { st1 with rejectors := insertK msgId cb st1.rejectors }
    | none => st1
  { st2 with
    timeouts :=
      insertK msgId ⟨true, TIMEOUT, reject?⟩ st2.timeouts }

/-- Firing of the timer armed for key `k`, i.e. the `setTimeout` callback
in `call` running after `TIMEOUT` ms: if the timer is still armed, it
invokes the captured `reject` (when it was a function) with
`\x7b message: timeoutMessage k, code: -1 \x7d`, and can never fire again.
The callback does not touch the `RESOLVERS`/`REJECTORS` tables. -/
def timerFire (st : PState) (k : String) :
    PState × List (Event InnerMessage) :=
  match lookupK k st.timeouts with
  | some t =>
      if t.armed then
        ({ st with timeouts := disarm k st.timeouts },
         match t.rejectCb with
         | some cb => [.rejectCb cb (.timeoutError (timeoutMessage k) (-1))]
         | none => [])
      else (st, [])
  | none => (st, [])

/-- An asynchronous occurrence after a call is in flight: an inbound
(parsed, post-authentication) message, or the firing of the timer armed
for a given id. -/
inductive Action where
  | recv (msg : InnerMessage)
  | fire (k : String)
deriving DecidableEq, Repr

/-- One step of the correlation engine on an `Action`. -/
def step (registry : List String) (st : PState) :
    Action → PState × List (Event InnerMessage)
  | .recv m => handleMessage registry st m
  | .fire k => timerFire st k

/-- Run a sequence of actions from a state, accumulating all events. -/
def runTrace (registry : List String) (st : PState) :
    List Action → PState × List (Event InnerMessage)
  | [] => (st, [])
  | a :: rest =>
      let out := step registry st a
      let out' := runTrace registry out.1 rest
      (out'.1, out.2 ++ out'.2)

/-- An event settles a call when it invokes a resolver or a rejector
(method-handler invocations are not settlements). -/
def isSettle : Event InnerMessage → Bool
  | .resolveCb _ _ => true
  | .rejectCb _ _ => true
  | .invokeMethod _ _ => false

/-- Number of resolver/rejector invocations in an event list. -/
def settleCount (evs : List (Event InnerMessage)) : Nat :=
  (evs.filter isSettle).length

/-- Observable effects of the pre-authentication `onmessage` branch:
settling the promise returned by `connect` (resolution with a string, or
rejection with an error message), or sending a string on the socket. -/
inductive AuthEvent where
  | connectResolve (s : String)
  | connectReject (msg : String)
  | send (s : String)
deriving DecidableEq, Repr

/-- The pre-authentication branch of `socket.onmessage`
(source lines 136-154), given the raw inbound text `data` and the injected
signer. On `"ok"` it sets `isAuthenticated` and resolves the connect
promise with the data; on `"not authorized"` it rejects with an
authorization error; on anything else it treats the data as a challenge,
signs it, and sends back exactly the signature. When already
authenticated, the message is instead handled by the RPC branch
(`handleMessage`), so this function leaves the flag unchanged and emits
nothing. -/
def authStep (signer : String → String) (authed : Bool) (data : String) :
    Bool × List AuthEvent :=
  if authed then (authed, [])
  else if data = "ok" then (true, [.connectResolve data])
  else if data = "not authorized" then
    (false, [.connectReject "Address is not authorized."])
  else (false, [.send (signer data)])

/-- Run a sequence of raw inbound messages through the pre-authentication
branch, tracking the `isAuthenticated` flag. -/
def runAuth (signer : String → String) (authed : Bool) :
    List String → Bool × List AuthEvent
  | [] => (authed, [])
  | d :: rest =>
      let out := authStep signer authed d
      let out' := runAuth signer out.1 rest
      (out'.1, out.2 ++ out'.2)

/-- A JSON-RPC payload as built by `Messenger.makeRPC`. -/
structure RPC where
  jsonrpc : String
  method : String
  params : List (String × JsValue)
  id : String
deriving DecidableEq, Repr

/-- Static helper `Messenger.makeRPC(method, params, id)` (source lines
46-53): wraps method, params and id with `jsonrpc: "2.0"`. The default
`id = uuid()` is passed explicitly here. -/
def makeRPC (method : String) (params : List (String × JsValue))
    (id : String) : RPC :=
  { jsonrpc := "2.0", method := method, params := params, id := id }

/-- JavaScript `String(v)` coercion for the values modelled here. -/
def jsString : JsValue → String
  | .vNull => "null"
  | .vUndefined => "undefined"
  | .vBool b => if b then "true" else "false"
  | .vNum n => toString n
  | .vStr s => s
  | .vObj _ => "[object Object]"

/-- The parameter object accepted by `getOrder`/`getQuote`/`getMaxQuote`/
`getOrders`: each field is absent (`none`) or a JS value whose truthiness
the validation code tests. -/
structure OrderParams where
  makerAmount : Option JsValue := none
  takerAmount : Option JsValue := none
  makerToken : Option JsValue := none
  takerToken : Option JsValue := none
deriving DecidableEq, Repr

/-- Spelling of `amt ? String(amt) : null` used for the amount fields of
the `getOrder`/`getQuote` payloads. -/
def amountField (o : Option JsValue) : JsValue :=
  if truthyOpt o then .vStr (jsString (o.getD .vUndefined)) else .vNull

/-- Argument validation and payload construction of
`Messenger.getOrder(makerAddress, params)` (source lines 245-264): throws
`bad arguments passed to getOrder` when neither or both amounts are given
or a token is missing, otherwise builds the `getOrder` RPC payload (which
is then sent via `call`; on the error branch nothing is sent and no
pending-call state is created). -/
def getOrder (takerAddress : String) (p : OrderParams) (id : String) :
    Except String RPC :=
  if !truthyOpt p.makerAmount && !truthyOpt p.takerAmount then
    .error "bad arguments passed to getOrder"
  else if truthyOpt p.makerAmount && truthyOpt p.takerAmount then
    .error "bad arguments passed to getOrder"
  else if !truthyOpt p.takerToken || !truthyOpt p.makerToken then
    .error "bad arguments passed to getOrder"
  else
    .ok (makeRPC "getOrder"
      [("makerToken", p.makerToken.getD .vUndefined),
       ("takerToken", p.takerToken.getD .vUndefined),
       ("takerAddress", .vStr takerAddress),
       ("makerAmount", amountField p.makerAmount),
       ("takerAmount", amountField p.takerAmount)] id)

/-- Argument validation and payload construction of
`Messenger.getQuote(makerAddress, params)` (source lines 266-281). The
error text is `bad arguments passed to getOrder` in the source for this
function too. -/
def getQuote (p : OrderParams) (id : String) : Except String RPC :=
  if !truthyOpt p.makerAmount && !truthyOpt p.takerAmount then
    .error "bad arguments passed to getOrder"
  else if truthyOpt p.makerAmount && truthyOpt p.takerAmount then
    .error "bad arguments passed to getOrder"
  else if !truthyOpt p.takerToken || !truthyOpt p.makerToken then
    .error "bad arguments passed to getOrder"
  else
    .ok (makeRPC "getQuote"
      [("makerToken", p.makerToken.getD .vUndefined),
       ("takerToken", p.takerToken.getD .vUndefined),
       ("makerAmount", amountField p.makerAmount),
       ("takerAmount", amountField p.takerAmount)] id)

/-- Argument validation and payload construction of
`Messenger.getMaxQuote(makerAddress, params)` (source lines 283-294): the
source checks only that both tokens are present; it performs no
validation of the amount fields. -/
def getMaxQuote (p : OrderParams) (id : String) : Except String RPC :=
  if !truthyOpt p.takerToken || !truthyOpt p.makerToken then
    .error "bad arguments passed to getOrder"
  else
    .ok (makeRPC "getMaxQuote"
      [("makerToken", p.makerToken.getD .vUndefined),
       ("takerToken", p.takerToken.getD .vUndefined)] id)

/-- One entry of the intent array passed to `getOrders`. -/
structure Intent where
  makerAddress : String
  makerToken : JsValue
  takerToken : JsValue
deriving DecidableEq, Repr

/-- An optional key of an object literal: contributes an entry only when
the field is present (models which keys `...params` spreads). -/
def optEntry (k : String) : Option JsValue → List (String × JsValue)
  | none => []
  | some v => [(k, v)]

/-- The per-intent payload built inside `getOrders` (source lines
303-308): `\x7b makerToken, takerToken, takerAddress, ...params \x7d` — the
spread of `params` overrides the tokens taken from the intent when the
corresponding key is present in `params`. -/
def ordersPayload (takerAddress : String) (p : OrderParams) (it : Intent)
    (id : String) : RPC :=
  makeRPC "getOrder"
    ([("makerToken", (p.makerToken).getD it.makerToken),
      ("takerToken", (p.takerToken).getD it.takerToken),
      ("takerAddress", .vStr takerAddress)]
      ++ optEntry "makerAmount" p.makerAmount
      ++ optEntry "takerAmount" p.takerAmount) id

/-- Outcome of the value of `new Promise(...).catch(e => e)`: a rejected
sub-call settles with its rejection value in place, so `Promise.all`
receives a fulfilled value either way. -/
def mergeOutcome : Except JsValue JsValue → JsValue
  | .ok v => v
  | .error e => e

/-- The mapped array inside `getOrders`: the `k`-th intent produces the
`k`-th element, which is the sub-call's result or its captured rejection
value. `outcome k it rpc` abstracts the asynchronous `getOrder` sub-call
made for position `k` on intent `it` with payload `rpc`. -/
def getOrdersResults (outcome : Nat → Intent → RPC → Except JsValue JsValue)
    (takerAddress : String) (p : OrderParams) (ids : Nat → String) :
    Nat → List Intent → List JsValue
  | _, [] => []
  | k, it :: rest =>
      mergeOutcome (outcome k it (ordersPayload takerAddress p it (ids k)))
        :: getOrdersResults outcome takerAddress p ids (k + 1) rest

/-- `Messenger.getOrders(intents, params)` (source lines 296-315): throws
when `params` has neither a truthy `makerAmount` nor a truthy
`takerAmount` (the list type already guarantees `Array.isArray`);
otherwise `Promise.all` over the per-intent sub-calls, each with its
rejection captured by `.catch(e => e)`. -/
def getOrders (outcome : Nat → Intent → RPC → Except JsValue JsValue)
    (takerAddress : String) (ids : Nat → String)
    (intents : List Intent) (p : OrderParams) :
    Except String (List JsValue) :=
  if !(truthyOpt p.makerAmount || truthyOpt p.takerAmount) then
    .error "bad arguments passed to getOrders"
  else
    .ok (getOrdersResults outcome takerAddress p ids 0 intents)

/-- A successful lookup finds a binding present in the list. -/
theorem lookupK_mem {α : Type} {k : String} {v : α} :
    ∀ {l : List (String × α)}, lookupK k l = some v → (k, v) ∈ l
  | [], h => by simp [lookupK] at h
  | (k', v') :: rest, h => by
      by_cases hk : k' = k
      · subst hk
        simp [lookupK] at h
        subst h
        exact List.mem_cons_self _ _
      · simp only [lookupK, if_neg hk] at h
        exact List.mem_cons_of_mem _ (lookupK_mem h)

/-- Deleting an absent key is a no-op. -/
theorem eraseK_of_lookup_none {α : Type} {k : String} :
    ∀ {l : List (String × α)}, lookupK k l = none → eraseK k l = l
  | [], _ => rfl
  | (k', v') :: rest, h => by
      by_cases hk : k' = k
      · simp [lookupK, hk] at h
      · simp only [lookupK, if_neg hk] at h
        simp [eraseK, hk, eraseK_of_lookup_none h]

/-- Clearing the timer of an absent key is a no-op. -/
theorem disarm_of_lookup_none {k : String} :
    ∀ {l : List (String × Timer)}, lookupK k l = none → disarm k l = l
  | [], _ => rfl
  | (k', t) :: rest, h => by
      by_cases hk : k' = k
      · simp [lookupK, hk] at h
      · simp only [lookupK, if_neg hk] at h
        simp [disarm, hk, disarm_of_lookup_none h]

/-- After deletion, the key no longer resolves. -/
theorem lookupK_eraseK_self {α : Type} (k : String) :
    ∀ (l : List (String × α)), lookupK k (eraseK k l) = none
  | [] => rfl
  | (k', v') :: rest => by
      by_cases hk : k' = k
      · simp [eraseK, hk, lookupK_eraseK_self k rest]
      · simp [eraseK, hk, lookupK, lookupK_eraseK_self k rest]

/-- Whatever timer the cleared key still maps to is disarmed. -/
theorem lookupK_disarm_self (k : String) :
    ∀ (l : List (String × Timer)) (t : Timer),
      lookupK k (disarm k l) = some t → t.armed = false
  | [], t, h => by simp [disarm, lookupK] at h
  | (k', t') :: rest, t, h => by
      by_cases hk : k' = k
      · simp [disarm, hk, lookupK] at h
        rw [← h]
      · simp only [disarm, if_neg hk, lookupK] at h
        exact lookupK_disarm_self k rest t h

/-- Settle counts add over concatenation of event lists. -/
theorem settleCount_append (a b : List (Event InnerMessage)) :
    settleCount (a ++ b) = settleCount a + settleCount b := by
  simp [settleCount, List.filter_append]

/-- A state in which the call for every id has been torn down: no
resolver or rejector is registered and every stored timer is disarmed.
From such a state no resolver, rejector or timeout can ever fire again. -/
def Settled (st : PState) : Prop :=
  st.resolvers = [] ∧ st.rejectors = [] ∧ ∀ p ∈ st.timeouts, p.2.armed = false

/-- Clearing one timer preserves all-timers-disarmed. -/
theorem disarm_preserves_disarmed (k : String) :
    ∀ (l : List (String × Timer)), (∀ p ∈ l, p.2.armed = false) →
      ∀ p ∈ disarm k l, p.2.armed = false
  | [], _, p, hp => by simp [disarm] at hp
  | (k', t) :: rest, h, p, hp => by
      by_cases hk : k' = k
      · simp only [disarm, if_pos hk] at hp
        rcases List.mem_cons.mp hp with h1 | h1
        · rw [h1]
        · exact disarm_preserves_disarmed k rest
            (fun q hq => h q (List.mem_cons_of_mem _ hq)) p h1
      · simp only [disarm, if_neg hk] at hp
        rcases List.mem_cons.mp hp with h1 | h1
        · exact h p (h1 ▸ List.mem_cons_self _ _)
        · exact disarm_preserves_disarmed k rest
            (fun q hq => h q (List.mem_cons_of_mem _ hq)) p h1

/-- From a settled state, a single action neither fires a callback nor
re-arms anything. -/
theorem settled_step (registry : List String) {st : PState} (a : Action)
    (h : Settled st) :
    Settled (step registry st a).1 ∧ settleCount (step registry st a).2 = 0 := by
  obtain ⟨hr, hj, ht⟩ := h
  cases a with
  | recv m =>
      simp only [step, handleMessage]
      by_cases h1 : jsTruthyStr m.method
      · simp only [if_pos h1]
        split
        · exact ⟨⟨hr, hj, ht⟩, rfl⟩
        · exact ⟨⟨hr, hj, ht⟩, rfl⟩
      · simp only [if_neg h1]
        by_cases h2 : jsTruthyStr m.id
        · simp only [if_pos h2, hr, hj]
          refine ⟨⟨rfl, rfl, disarm_preserves_disarmed _ _ ht⟩, ?_⟩
          simp [lookupK, settleCount]
        · simp only [if_neg h2]
          exact ⟨⟨hr, hj, ht⟩, rfl⟩
  | fire k =>
      simp only [step, timerFire]
      cases hl : lookupK k st.timeouts with
      | none => exact ⟨⟨hr, hj, ht⟩, rfl⟩
      | some t =>
          have : t.armed = false := ht (k, t) (lookupK_mem hl)
          simp only [this]
          exact ⟨⟨hr, hj, ht⟩, rfl⟩

/-- Unfolding of `runTrace` on a first action. -/
theorem runTrace_cons (registry : List String) (st : PState) (a : Action)
    (rest : List Action) :
    runTrace registry st (a :: rest)
      = ((runTrace registry (step registry st a).1 rest).1,
         (step registry st a).2
           ++ (runTrace registry (step registry st a).1 rest).2) := rfl

/-- From a settled state, no trace of actions ever fires a resolver or a
rejector, and the state stays settled. -/
theorem settled_trace (registry : List String) :
    ∀ (acts : List Action) {st : PState}, Settled st →
      Settled (runTrace registry st acts).1
      ∧ settleCount (runTrace registry st acts).2 = 0
  | [], _, h => ⟨h, rfl⟩
  | a :: rest, st, h => by
      have h1 := settled_step registry a h
      have h2 := settled_trace registry rest h1.1
      rw [runTrace_cons]
      exact ⟨h2.1, by simp [settleCount_append, h1.2, h2.2]⟩

/-- The pending state right after `call(receiver, msg, resolve, reject)`
on a fresh messenger: one resolver, one rejector, one armed timer, all
keyed by the inner message id. -/
def callState (i : String) (r j : Nat) : PState :=
  ⟨[(i, r)], [(i, j)], [(i, ⟨true, TIMEOUT, some j⟩)]⟩

/-- On a fresh messenger, `call` with both callbacks produces exactly
`callState`. -/
theorem call_empty_eq (i : String) (r j : Nat) :
    call PState.empty i (some r) (some j) = callState i r j := rfl

/-- Receiving one message in the pending single-call state either leaves
the state untouched with no settle event (message for another id, a
method invocation, or an id-less message), or settles: it tears the call
down and fires at most one callback. -/
theorem pending_recv (registry : List String) (i : String) (r j : Nat)
    (m : InnerMessage) :
    ((step registry (callState i r j) (.recv m)).1 = callState i r j
      ∧ settleCount (step registry (callState i r j) (.recv m)).2 = 0)
    ∨ (Settled (step registry (callState i r j) (.recv m)).1
      ∧ settleCount (step registry (callState i r j) (.recv m)).2 ≤ 1) := by
  simp only [step, handleMessage]
  by_cases h1 : jsTruthyStr m.method
  · left
    simp only [if_pos h1]
    split
    · exact ⟨rfl, rfl⟩
    · exact ⟨rfl, rfl⟩
  · simp only [if_neg h1]
    by_cases h2 : jsTruthyStr m.id
    · simp only [if_pos h2]
      by_cases hii : m.id.getD "" = i
      · right
        rw [hii]
        constructor
        · exact ⟨by simp [callState, eraseK],
                 by simp [callState, eraseK],
                 by simp [callState, disarm]⟩
        · simp only [callState, lookupK, if_pos rfl]
          split
          · simp [settleCount, isSettle]
          · split
            · simp [settleCount, isSettle]
            · simp [settleCount]
      · left
        have hne : i ≠ m.id.getD "" := fun h => hii h.symm
        have hl : ∀ (v : Nat), lookupK (m.id.getD "") [(i, v)] = none := by
          intro v
          simp [lookupK, hne]
        constructor
        · simp [callState, PState.mk.injEq, eraseK, disarm, hne]
        · simp only [callState]
          simp only [hl]
          split
          · simp [settleCount]
          · split
            · simp [settleCount]
            · simp [settleCount]
    · left
      simp [if_neg h2, settleCount]

/-- In any execution from the pending single-call state in which the
timeout never fires, either no settle event has happened and the call is
still pending, or the call has settled: at most one callback ever fired
and the state is torn down. -/
theorem pending_trace (registry : List String) (i : String) (r j : Nat) :
    ∀ (acts : List Action), (∀ k, Action.fire k ∉ acts) →
      ((runTrace registry (callState i r j) acts).1 = callState i r j
        ∧ settleCount (runTrace registry (callState i r j) acts).2 = 0)
      ∨ (Settled (runTrace registry (callState i r j) acts).1
        ∧ settleCount (runTrace registry (callState i r j) acts).2 ≤ 1)
  | [], _ => Or.inl ⟨rfl, rfl⟩
  | a :: rest, hfire => by
      have htail : ∀ k, Action.fire k ∉ rest := fun k hk =>
        hfire k (List.mem_cons_of_mem _ hk)
      cases a with
      | fire k => exact absurd (List.mem_cons_self _ _) (hfire k)
      | recv m =>
          rw [runTrace_cons]
          rcases pending_recv registry i r j m with ⟨hst, hev⟩ | ⟨hst, hev⟩
          · rw [hst]
            rcases pending_trace registry i r j rest htail with ⟨h1, h2⟩ | ⟨h1, h2⟩
            · exact Or.inl ⟨h1, by simp [settleCount_append, hev, h2]⟩
            · exact Or.inr ⟨h1, by simp [settleCount_append, hev, h2]⟩
          · have h2 := settled_trace registry rest hst
            refine Or.inr ⟨h2.1, ?_⟩
            rw [settleCount_append, h2.2]
            omega

/-- Claim C1, counterexample. In the trace where the timeout for call id
`a` fires and the matching response arrives afterwards, BOTH the rejector
(with the timeout error) and the resolver (with the result) fire — two
settlements for one call id — and after the timeout-rejection fired the
pending resolver entry is still present. This refutes the claim that at
most one of resolve/reject/timed-out occurs and that the pending record
is absent once a callback has fired: the timeout callback in `call` never
deletes the `RESOLVERS`/`REJECTORS`/`TIMEOUTS` entries. -/
theorem C1_counterexample :
    (runTrace [] (call PState.empty "a" (some 0) (some 1))
        [Action.fire "a",
         Action.recv { id := some "a", result := some (.vStr "order") }]).2
      = [Event.rejectCb 1 (.timeoutError "Request timed out. [a]" (-1)),
         Event.resolveCb 0 (.vStr "order")]
    ∧ lookupK "a"
        (timerFire (call PState.empty "a" (some 0) (some 1)) "a").1.resolvers
      = some 0 := by
  constructor <;> rfl

/-- Claim C1 (amended): for a call armed with a resolver and a rejector,
in every execution in which the timeout does not fire, at most one of the
resolver and rejector fires, it fires at most once across the whole
trace, and once a settlement happened the pending resolver and rejector
entries for the id are absent and the stored timer is disarmed — so any
later inbound message bearing that id invokes no callback. (When the
timeout does fire, the pending record survives and a late response still
invokes its callback, as the counterexample shows.) -/
theorem C1_at_most_one_settlement (registry : List String) (i : String)
    (r j : Nat) (acts : List Action)
    (hfire : ∀ k, Action.fire k ∉ acts) :
    settleCount
        (runTrace registry (call PState.empty i (some r) (some j)) acts).2 ≤ 1
    ∧ (1 ≤ settleCount
          (runTrace registry (call PState.empty i (some r) (some j)) acts).2 →
        lookupK i (runTrace registry
          (call PState.empty i (some r) (some j)) acts).1.resolvers = none
        ∧ lookupK i (runTrace registry
            (call PState.empty i (some r) (some j)) acts).1.rejectors = none
        ∧ ∀ t, lookupK i (runTrace registry
            (call PState.empty i (some r) (some j)) acts).1.timeouts = some t →
            t.armed = false) := by
  rw [call_empty_eq]
  rcases pending_trace registry i r j acts hfire with ⟨_, h2⟩ | ⟨h1, h2⟩
  · rw [h2]
    exact ⟨Nat.zero_le 1, fun hc => absurd hc (by omega)⟩
  · obtain ⟨hr, hj, ht⟩ := h1
    refine ⟨h2, fun _ => ⟨?_, ?_, ?_⟩⟩
    · rw [hr]; rfl
    · rw [hj]; rfl
    · intro t hlt
      exact ht (i, t) (lookupK_mem hlt)

/-- Witness for C1: a concrete no-timeout trace in which the response for
id `a` arrives twice; only one settlement happens. -/
theorem C1_witness :
    settleCount (runTrace [] (call PState.empty "a" (some 0) (some 1))
        [Action.recv { id := some "a", result := some (.vStr "order") },
         Action.recv { id := some "a", result := some (.vStr "order") }]).2 ≤ 1 :=
  (C1_at_most_one_settlement [] "a" 0 1
      [Action.recv { id := some "a", result := some (.vStr "order") },
       Action.recv { id := some "a", result := some (.vStr "order") }]
      (by simp)).1

/-- Claim C2, counterexample. After the timeout for call id `b` fires
(rejecting with the timeout error), the matching error response still
invokes the rejector a second time: the late response is NOT a no-op,
because the timeout callback leaves the pending entries in place. -/
theorem C2_counterexample :
    (runTrace [] (call PState.empty "b" (some 0) (some 1))
        [Action.fire "b",
         Action.recv { id := some "b", errorField := some (.vStr "err") }]).2
      = [Event.rejectCb 1 (.timeoutError "Request timed out. [b]" (-1)),
         Event.rejectCb 1 (.errVal (.vStr "err"))] := by
  rfl

/-- Claim C2 (amended): when the timer armed by `call` (duration
`TIMEOUT = 12000` ms) fires before any matching response, the supplied
rejector is invoked with the timeout error object carrying
`timeoutMessage i` and code `-1`, and the timer is disarmed so it can
never fire again. However, the pending entries are not removed: the
resolver and rejector entries survive, and a matching response arriving
after the timeout fired still invokes the resolver — it is not a no-op. -/
theorem C2_timeout_rejects_code_minus_one (registry : List String)
    (i : String) (r j : Nat) (hi : i ≠ "") :
    timerFire (call PState.empty i (some r) (some j)) i
      = ({ resolvers := [(i, r)], rejectors := [(i, j)],
           timeouts := [(i, ⟨false, TIMEOUT, some j⟩)] },
         [Event.rejectCb j (.timeoutError (timeoutMessage i) (-1))])
    ∧ TIMEOUT = 12000
    ∧ timerFire (timerFire (call PState.empty i (some r) (some j)) i).1 i
      = ((timerFire (call PState.empty i (some r) (some j)) i).1, [])
    ∧ ∀ v : JsValue, v.truthy = true →
        (handleMessage registry
            (timerFire (call PState.empty i (some r) (some j)) i).1
            { id := some i, result := some v }).2
          = [Event.resolveCb r v] := by
  rw [call_empty_eq]
  have hfire : timerFire (callState i r j) i
      = ({ resolvers := [(i, r)], rejectors := [(i, j)],
           timeouts := [(i, ⟨false, TIMEOUT, some j⟩)] },
         [Event.rejectCb j (.timeoutError (timeoutMessage i) (-1))]) := by
    simp [callState, timerFire, lookupK, disarm]
  refine ⟨hfire, rfl, ?_, ?_⟩
  · rw [hfire]
    simp [timerFire, lookupK]
  · intro v hv
    rw [hfire]
    simp [handleMessage, jsTruthyStr, hi, lookupK, truthyOpt, hv,
      InnerMessage.resultVal]

/-- Witness for C2: firing the timeout of the concrete call `a` rejects
with code `-1` and leaves the entries in place but the timer disarmed. -/
theorem C2_witness :
    timerFire (call PState.empty "a" (some 0) (some 1)) "a"
      = ({ resolvers := [("a", 0)], rejectors := [("a", 1)],
           timeouts := [("a", ⟨false, TIMEOUT, some 1⟩)] },
         [Event.rejectCb 1 (.timeoutError (timeoutMessage "a") (-1))]) :=
  (C2_timeout_rejects_code_minus_one [] "a" 0 1 (by decide)).1

/-- Claim C3, counterexample. A response for the pending call `a` that
carries a `result` field with the falsy value `0` (and no `error` key)
does NOT invoke the registered resolver — the source guards the resolver
call with the truthiness test `!isError && message.result` — although the
pending entries are still torn down. This refutes the claim that every
response carrying a `result` field (and no `error` key) invokes the
registered resolver. -/
theorem C3_counterexample :
    handleMessage [] (call PState.empty "a" (some 0) (some 1))
        { id := some "a", result := some (.vNum 0) }
      = (⟨[], [], [("a", ⟨false, TIMEOUT, some 1⟩)]⟩, []) := by
  rfl

/-- Claim C3 (amended): for every inbound post-authentication response
whose inner message id matches a pending call, if the message carries a
TRUTHY `result` value and no `error` key, the registered resolver (if
any) is invoked with the result value; if it carries an `error` key, the
registered rejector (if any) is invoked with the error value; and in both
cases the timeout is cleared and the pending resolver and rejector
entries for that id are deleted. -/
theorem C3_response_resolution (registry : List String) (st : PState)
    (i : String) (msg : InnerMessage)
    (hm : jsTruthyStr msg.method = false) (hid : msg.id = some i)
    (hi : i ≠ "") :
    (handleMessage registry st msg).1.resolvers = eraseK i st.resolvers
    ∧ (handleMessage registry st msg).1.rejectors = eraseK i st.rejectors
    ∧ (handleMessage registry st msg).1.timeouts = disarm i st.timeouts
    ∧ lookupK i (handleMessage registry st msg).1.resolvers = none
    ∧ lookupK i (handleMessage registry st msg).1.rejectors = none
    ∧ (∀ t, lookupK i (handleMessage registry st msg).1.timeouts = some t →
        t.armed = false)
    ∧ (∀ cb v, msg.errorField = none → msg.result = some v →
        v.truthy = true → lookupK i st.resolvers = some cb →
        (handleMessage registry st msg).2 = [Event.resolveCb cb v])
    ∧ (∀ cb v, msg.errorField = some v → lookupK i st.rejectors = some cb →
        (handleMessage registry st msg).2 = [Event.rejectCb cb (.errVal v)]) := by
  have h2 : jsTruthyStr (some i) = true := by
    simpa [jsTruthyStr] using hi
  have hstate : (handleMessage registry st msg).1
      = ⟨eraseK i st.resolvers, eraseK i st.rejectors, disarm i st.timeouts⟩ := by
    simp [handleMessage, hm, h2, hid]
  refine ⟨by rw [hstate], by rw [hstate], by rw [hstate], ?_, ?_, ?_, ?_, ?_⟩
  · rw [hstate]
    exact lookupK_eraseK_self i st.resolvers
  · rw [hstate]
    exact lookupK_eraseK_self i st.rejectors
  · rw [hstate]
    exact lookupK_disarm_self i st.timeouts
  · intro cb v herr hres hv hcb
    simp [handleMessage, hm, h2, hid, herr, hres, hv, hcb, truthyOpt,
      InnerMessage.resultVal]
  · intro cb v herr hcb
    simp [handleMessage, hm, h2, hid, herr, hcb, InnerMessage.errorVal]

/-- Witness for C3: the concrete truthy-result response for pending call
`a` invokes the registered resolver with that result. -/
theorem C3_witness :
    (handleMessage [] (call PState.empty "a" (some 0) (some 1))
        { id := some "a", result := some (.vStr "done") }).2
      = [Event.resolveCb 0 (.vStr "done")] :=
  ((C3_response_resolution [] (call PState.empty "a" (some 0) (some 1)) "a"
      { id := some "a", result := some (.vStr "done") }
      rfl rfl (by decide)).2.2.2.2.2.2.1)
    0 (.vStr "done") rfl rfl rfl (by decide)

/-- Claim C4, counterexample. A response bearing the id of a pending call
but carrying neither a `result` field nor an `error` key is NOT
frame-preserving: although no callback fires, the handler still deletes
the pending resolver and rejector entries (the teardown at the end of the
response path runs unconditionally). This refutes the claim that such
messages leave the pending-call state unchanged. -/
theorem C4_counterexample :
    (handleMessage [] (call PState.empty "a" (some 0) (some 1))
        { id := some "a" }).1
      ≠ call PState.empty "a" (some 0) (some 1)
    ∧ (handleMessage [] (call PState.empty "a" (some 0) (some 1))
        { id := some "a" }).1.resolvers = [] := by
  constructor
  · decide
  · rfl

/-- Claim C4 (amended): a post-authentication response with no truthy
`result` and no `error` key invokes no resolver or rejector, and a
response whose id matches no pending call is silently dropped — no
callback fires and the three tables are left completely unchanged. A
fieldless response whose id DOES match a pending call, however, still
deletes that call's resolver and rejector entries. -/
theorem C4_silent_drop (registry : List String) (st : PState) (i : String)
    (msg : InnerMessage)
    (hm : jsTruthyStr msg.method = false) (hid : msg.id = some i)
    (hi : i ≠ "") :
    (truthyOpt msg.result = false → msg.errorField = none →
      (handleMessage registry st msg).2 = []
      ∧ lookupK i (handleMessage registry st msg).1.resolvers = none
      ∧ lookupK i (handleMessage registry st msg).1.rejectors = none)
    ∧ (lookupK i st.resolvers = none → lookupK i st.rejectors = none →
      lookupK i st.timeouts = none →
      (handleMessage registry st msg).2 = []
      ∧ (handleMessage registry st msg).1 = st) := by
  have h2 : jsTruthyStr (some i) = true := by
    simpa [jsTruthyStr] using hi
  constructor
  · intro hres herr
    refine ⟨?_, ?_, ?_⟩
    · simp [handleMessage, hm, h2, hid, herr, hres]
    · have hstate : (handleMessage registry st msg).1.resolvers
          = eraseK i st.resolvers := by
        simp [handleMessage, hm, h2, hid]
      rw [hstate]
      exact lookupK_eraseK_self i st.resolvers
    · have hstate : (handleMessage registry st msg).1.rejectors
          = eraseK i st.rejectors := by
        simp [handleMessage, hm, h2, hid]
      rw [hstate]
      exact lookupK_eraseK_self i st.rejectors
  · intro hr hj ht
    constructor
    · simp [handleMessage, hm, h2, hid, hr, hj]
    · have hstate : (handleMessage registry st msg).1
          = ⟨eraseK i st.resolvers, eraseK i st.rejectors,
             disarm i st.timeouts⟩ := by
        simp [handleMessage, hm, h2, hid]
      rw [hstate, eraseK_of_lookup_none hr, eraseK_of_lookup_none hj,
        disarm_of_lookup_none ht]

/-- Witness for C4: a fieldless response for the pending call `a` fires
nothing, and a truthy-result response for the unknown id `zz` leaves the
single-call state byte-for-byte unchanged. -/
theorem C4_witness :
    (handleMessage [] (call PState.empty "a" (some 0) (some 1))
        { id := some "a" }).2 = []
    ∧ (handleMessage [] (call PState.empty "a" (some 0) (some 1))
        { id := some "zz", result := some (.vStr "r") }).1
      = call PState.empty "a" (some 0) (some 1) :=
  ⟨((C4_silent_drop [] (call PState.empty "a" (some 0) (some 1)) "a"
      { id := some "a" } rfl rfl (by decide)).1 rfl rfl).1,
   ((C4_silent_drop [] (call PState.empty "a" (some 0) (some 1)) "zz"
      { id := some "zz", result := some (.vStr "r") } rfl rfl (by decide)).2
      (by decide) (by decide) (by decide)).2⟩

/-- Unfolding of `runAuth` on a first inbound message. -/
theorem runAuth_cons (signer : String → String) (a : Bool) (d : String)
    (rest : List String) :
    runAuth signer a (d :: rest)
      = ((runAuth signer (authStep signer a d).1 rest).1,
         (authStep signer a d).2
           ++ (runAuth signer (authStep signer a d).1 rest).2) := rfl

/-- While unauthenticated, the flag stays false as long as the exact
message `ok` has not arrived. -/
theorem runAuth_no_ok (signer : String → String) :
    ∀ (msgs : List String), "ok" ∉ msgs →
      (runAuth signer false msgs).1 = false
  | [], _ => rfl
  | d :: rest, h => by
      have hd : d ≠ "ok" := fun hdd => h (hdd ▸ List.mem_cons_self _ _)
      have ht : "ok" ∉ rest := fun hh => h (List.mem_cons_of_mem _ hh)
      have hstep : (authStep signer false d).1 = false := by
        by_cases hna : d = "not authorized"
        · simp [authStep, hd, hna]
        · simp [authStep, hd, hna]
      rw [runAuth_cons, hstep]
      exact runAuth_no_ok signer rest ht

/-- Claim C5: during the pre-authentication phase, any inbound raw
message other than the exact strings `ok` and `not authorized` is treated
as a challenge — the injected signer is applied to it and exactly the
resulting signature string is sent back, with the authenticated flag
still false — and upon receiving the exact string `ok` the flag is set
and the promise returned by `connect` resolves with `ok`. -/
theorem C5_challenge_then_ok (signer : String → String) (data : String)
    (h1 : data ≠ "ok") (h2 : data ≠ "not authorized") :
    authStep signer false data = (false, [AuthEvent.send (signer data)])
    ∧ authStep signer false "ok" = (true, [AuthEvent.connectResolve "ok"]) := by
  constructor
  · simp [authStep, h1, h2]
  · simp [authStep]

/-- Witness for C5: the challenge `xyz` with a signer producing `sig1`
sends exactly `sig1`, and `ok` then authenticates and resolves. -/
theorem C5_witness :
    authStep (fun _ => "sig1") false "xyz"
      = (false, [AuthEvent.send "sig1"])
    ∧ authStep (fun _ => "sig1") false "ok"
      = (true, [AuthEvent.connectResolve "ok"]) :=
  C5_challenge_then_ok (fun _ => "sig1") "xyz" (by decide) (by decide)

/-- Claim C6: receiving the exact string `not authorized` while not yet
authenticated rejects the promise returned by `connect` with an
authorization error and leaves the authenticated flag false; and as long
as no subsequent message is the exact string `ok`, the flag stays false
— no inbound message on that connection is processed as RPC traffic
(the flag never becomes true from the `not authorized` message alone). -/
theorem C6_not_authorized_rejects (signer : String → String)
    (msgs : List String) (h : "ok" ∉ msgs) :
    authStep signer false "not authorized"
      = (false, [AuthEvent.connectReject "Address is not authorized."])
    ∧ (runAuth signer false ("not authorized" :: msgs)).1 = false := by
  constructor
  · simp [authStep]
  · exact runAuth_no_ok signer _ (by
      intro hc
      rcases List.mem_cons.mp hc with hc | hc
      · exact absurd hc.symm (by decide)
      · exact h hc)

/-- Witness for C6: the concrete session receiving `not authorized` and
then a challenge string never authenticates. -/
theorem C6_witness :
    authStep (fun _ => "sig1") false "not authorized"
      = (false, [AuthEvent.connectReject "Address is not authorized."])
    ∧ (runAuth (fun _ => "sig1") false
        ["not authorized", "challenge"]).1 = false :=
  C6_not_authorized_rejects (fun _ => "sig1") ["challenge"] (by decide)

/-- Claim C7, counterexample. The parsed message
`\x7b method: "", id: "a", result: "r" \x7d` HAS a `method` field, yet the
dispatcher takes the response-resolution path and invokes the resolver of
pending call `a`: the source tests `if (message.method)` by truthiness,
and the empty string is falsy. This refutes the claim that the
response-resolution path is never taken for messages having a `method`
field. -/
theorem C7_counterexample :
    (handleMessage ["ping"] (call PState.empty "a" (some 0) (some 1))
        { method := some "", id := some "a", result := some (.vStr "r") }).2
      = [Event.resolveCb 0 (.vStr "r")] := by
  rfl

/-- Claim C7 (amended): for every successfully parsed post-authentication
message whose inner message has a TRUTHY (non-empty) `method` string: if
the method is present in the registry, the registered handler is invoked
exactly once with the parsed message; if it is not registered, the
message is silently ignored (no events, no error response); in both cases
the pending-call state is untouched and the response-resolution path is
not taken. -/
theorem C7_method_dispatch (registry : List String) (st : PState)
    (msg : InnerMessage) (m : String)
    (hm : msg.method = some m) (hne : m ≠ "") :
    (m ∈ registry →
      handleMessage registry st msg = (st, [Event.invokeMethod m msg]))
    ∧ (m ∉ registry → handleMessage registry st msg = (st, [])) := by
  have ht : jsTruthyStr (some m) = true := by
    simpa [jsTruthyStr] using hne
  constructor
  · intro hin
    simp [handleMessage, ht, hm, hin]
  · intro hout
    simp [handleMessage, ht, hm, hout]

/-- Witness for C7: the registered method `ping` is dispatched exactly
once with the parsed message. -/
theorem C7_witness :
    handleMessage ["ping"] (call PState.empty "a" (some 0) (some 1))
        { method := some "ping" }
      = (call PState.empty "a" (some 0) (some 1),
         [Event.invokeMethod "ping" { method := some "ping" }]) :=
  (C7_method_dispatch ["ping"] (call PState.empty "a" (some 0) (some 1))
      { method := some "ping" } "ping" rfl (by decide)).1 (by decide)

/-- The mapped array of `getOrders` has one element per intent. -/
theorem getOrdersResults_length
    (outcome : Nat → Intent → RPC → Except JsValue JsValue)
    (taker : String) (p : OrderParams) (ids : Nat → String) :
    ∀ (k : Nat) (l : List Intent),
      (getOrdersResults outcome taker p ids k l).length = l.length
  | _, [] => rfl
  | k, _ :: rest => by
      simp [getOrdersResults,
        getOrdersResults_length outcome taker p ids (k + 1) rest]

/-- The `n`-th element of the mapped array of `getOrders` is the merged
outcome of the `n`-th sub-call. -/
theorem getOrdersResults_getElem
    (outcome : Nat → Intent → RPC → Except JsValue JsValue)
    (taker : String) (p : OrderParams) (ids : Nat → String) :
    ∀ (k n : Nat) (l : List Intent) (it : Intent), l[n]? = some it →
      (getOrdersResults outcome taker p ids k l)[n]?
        = some (mergeOutcome
            (outcome (k + n) it (ordersPayload taker p it (ids (k + n)))))
  | _, _, [], _, h => by simp at h
  | k, 0, it0 :: rest, it, h => by
      simp at h
      subst h
      simp [getOrdersResults]
  | k, n + 1, it0 :: rest, it, h => by
      simp only [List.getElem?_cons_succ] at h
      have hrec := getOrdersResults_getElem outcome taker p ids (k + 1) n rest it h
      have harith : k + 1 + n = k + (n + 1) := by omega
      rw [harith] at hrec
      simpa [getOrdersResults] using hrec

/-- Claim C8: given any array of N intents and params with at least one
truthy amount, `getOrders` does not reject: it returns a sequence of
exactly N elements, order-aligned with the intents, whose `n`-th element
is the `n`-th sub-call's result when that maker succeeded and that
sub-call's captured rejection value otherwise (the `.catch` on each
sub-promise converts a rejection into a fulfilled value, so the
`Promise.all` aggregate never rejects because a sub-call failed). -/
theorem C8_getOrders_aligned
    (outcome : Nat → Intent → RPC → Except JsValue JsValue)
    (taker : String) (ids : Nat → String) (intents : List Intent)
    (p : OrderParams)
    (h : (truthyOpt p.makerAmount || truthyOpt p.takerAmount) = true) :
    getOrders outcome taker ids intents p
      = .ok (getOrdersResults outcome taker p ids 0 intents)
    ∧ (getOrdersResults outcome taker p ids 0 intents).length
      = intents.length
    ∧ ∀ (n : Nat) (it : Intent), intents[n]? = some it →
        (getOrdersResults outcome taker p ids 0 intents)[n]?
          = some (mergeOutcome
              (outcome n it (ordersPayload taker p it (ids n)))) := by
  refine ⟨by simp [getOrders, h], getOrdersResults_length _ _ _ _ 0 intents, ?_⟩
  intro n it hn
  have := getOrdersResults_getElem outcome taker p ids 0 n intents it hn
  simpa using this

/-- Witness for C8: two concrete intents, the first sub-call succeeding
and the second rejecting; the aggregate is a fulfilled array of length 2
with the rejection captured in place. -/
theorem C8_witness :
    getOrders
        (fun k _ _ => if k = 0 then .ok (.vStr "order0")
          else .error (.vStr "error1"))
        "0xtaker" (fun _ => "uuid")
        [⟨"0xm0", .vStr "tokA", .vStr "tokB"⟩,
         ⟨"0xm1", .vStr "tokC", .vStr "tokD"⟩]
        { makerAmount := some (.vStr "10000") }
      = .ok (getOrdersResults
          (fun k _ _ => if k = 0 then .ok (.vStr "order0")
            else .error (.vStr "error1"))
          "0xtaker" { makerAmount := some (.vStr "10000") } (fun _ => "uuid")
          0
          [⟨"0xm0", .vStr "tokA", .vStr "tokB"⟩,
           ⟨"0xm1", .vStr "tokC", .vStr "tokD"⟩]) :=
  (C8_getOrders_aligned
      (fun k _ _ => if k = 0 then .ok (.vStr "order0")
        else .error (.vStr "error1"))
      "0xtaker" (fun _ => "uuid")
      [⟨"0xm0", .vStr "tokA", .vStr "tokB"⟩,
       ⟨"0xm1", .vStr "tokC", .vStr "tokD"⟩]
      { makerAmount := some (.vStr "10000") } (by decide)).1

/-- Claim C9, counterexample. `getMaxQuote` with both tokens present and
NEITHER amount given does not throw: it happily builds the `getMaxQuote`
payload, because the source validates only the token fields for this
method. This refutes the claim that `getMaxQuote` throws whenever both or
neither of makerAmount/takerAmount are given. -/
theorem C9_counterexample :
    getMaxQuote
        { makerToken := some (.vStr "0xmaker"),
          takerToken := some (.vStr "0xtaker") } "u1"
      = .ok (makeRPC "getMaxQuote"
          [("makerToken", .vStr "0xmaker"),
           ("takerToken", .vStr "0xtaker")] "u1") := by
  rfl

/-- Claim C9 (amended): `getOrder` and `getQuote` throw the descriptive
error synchronously — before any payload is built, so nothing is sent and
no pending-call state is created — whenever both or neither of
makerAmount/takerAmount are (truthily) given, and whenever makerToken or
takerToken is missing; `getMaxQuote` throws only when makerToken or
takerToken is missing (it performs no amount validation). -/
theorem C9_sync_validation (taker : String) (p : OrderParams)
    (id : String) :
    (((truthyOpt p.makerAmount = false ∧ truthyOpt p.takerAmount = false)
      ∨ (truthyOpt p.makerAmount = true ∧ truthyOpt p.takerAmount = true)
      ∨ truthyOpt p.makerToken = false ∨ truthyOpt p.takerToken = false) →
      getOrder taker p id = .error "bad arguments passed to getOrder"
      ∧ getQuote p id = .error "bad arguments passed to getOrder")
    ∧ ((truthyOpt p.makerToken = false ∨ truthyOpt p.takerToken = false) →
      getMaxQuote p id = .error "bad arguments passed to getOrder") := by
  constructor
  · intro h
    cases hma : truthyOpt p.makerAmount <;>
      cases hta : truthyOpt p.takerAmount <;>
        rcases h with ⟨h1, h2⟩ | ⟨h1, h2⟩ | h1 | h1 <;>
          simp_all [getOrder, getQuote]
  · intro h
    rcases h with h1 | h1 <;> simp [getMaxQuote, h1]

/-- Witness for C9: calling `getOrder`/`getQuote` with both amounts
supplied throws the descriptive error, and `getMaxQuote` with a missing
takerToken throws it too. -/
theorem C9_witness :
    (getOrder "0xtaker"
        { makerAmount := some (.vStr "1"), takerAmount := some (.vStr "2"),
          makerToken := some (.vStr "a"), takerToken := some (.vStr "b") }
        "u1"
      = .error "bad arguments passed to getOrder"
    ∧ getQuote
        { makerAmount := some (.vStr "1"), takerAmount := some (.vStr "2"),
          makerToken := some (.vStr "a"), takerToken := some (.vStr "b") }
        "u1"
      = .error "bad arguments passed to getOrder")
    ∧ getMaxQuote { makerToken := some (.vStr "a") } "u1"
      = .error "bad arguments passed to getOrder" :=
  ⟨(C9_sync_validation "0xtaker"
      { makerAmount := some (.vStr "1"), takerAmount := some (.vStr "2"),
        makerToken := some (.vStr "a"), takerToken := some (.vStr "b") }
      "u1").1 (Or.inr (Or.inl (by decide))),
   (C9_sync_validation "0xtaker" { makerToken := some (.vStr "a") } "u1").2
     (Or.inr (by decide))⟩

/-- Claim C10: a post-authentication response whose id matches the
pending call but which has no `error` key and a falsy `result` (absent,
`0`, `false`, `null`, or `""`) invokes neither the resolver nor the
rejector, yet deletes the pending resolver and rejector entries and
clears (disarms) the timeout — and consequently no continuation of the
execution, messages or timer firings alike, ever settles the call by
resolution, rejection, or timeout. -/
theorem C10_falsy_result_never_settles (registry : List String)
    (i : String) (r j : Nat) (msg : InnerMessage) (acts : List Action)
    (hm : jsTruthyStr msg.method = false) (hid : msg.id = some i)
    (hi : i ≠ "") (herr : msg.errorField = none)
    (hres : truthyOpt msg.result = false) :
    (handleMessage registry (call PState.empty i (some r) (some j)) msg).2
      = []
    ∧ (handleMessage registry
        (call PState.empty i (some r) (some j)) msg).1
      = ⟨[], [], [(i, ⟨false, TIMEOUT, some j⟩)]⟩
    ∧ settleCount (runTrace registry
        (handleMessage registry
          (call PState.empty i (some r) (some j)) msg).1 acts).2 = 0 := by
  have h2 : jsTruthyStr (some i) = true := by
    simpa [jsTruthyStr] using hi
  have hmain : handleMessage registry
      (call PState.empty i (some r) (some j)) msg
      = (⟨[], [], [(i, ⟨false, TIMEOUT, some j⟩)]⟩, []) := by
    rw [call_empty_eq]
    simp [handleMessage, hm, h2, hid, herr, hres, callState, eraseK, disarm]
  refine ⟨by rw [hmain], by rw [hmain], ?_⟩
  rw [hmain]
  exact (settled_trace registry acts ⟨rfl, rfl, by simp⟩).2

/-- Witness for C10: the concrete response for pending call `a` with
`result: 0` and no `error` fires nothing, tears the call down, and no
later response or timer firing for `a` settles anything. -/
theorem C10_witness :
    (handleMessage [] (call PState.empty "a" (some 0) (some 1))
        { id := some "a", result := some (.vNum 0) }).2 = []
    ∧ (handleMessage [] (call PState.empty "a" (some 0) (some 1))
        { id := some "a", result := some (.vNum 0) }).1
      = ⟨[], [], [("a", ⟨false, TIMEOUT, some 1⟩)]⟩
    ∧ settleCount (runTrace []
        (handleMessage [] (call PState.empty "a" (some 0) (some 1))
          { id := some "a", result := some (.vNum 0) }).1
        [Action.fire "a",
         Action.recv { id := some "a", result := some (.vStr "late") }]).2
      = 0 :=
  C10_falsy_result_never_settles [] "a" 0 1
    { id := some "a", result := some (.vNum 0) }
    [Action.fire "a",
     Action.recv { id := some "a", result := some (.vStr "late") }]
    rfl rfl (by decide) rfl rfl

end Messenger
